import Mathlib

/-!
Verification development for the online-retail CRUD service: a shallow
embedding of the PostgreSQL trigger functions (creating trigres.sql),
the product route handlers (index.js) and the retail route handlers
(routes/retail.js), together with theorems settling the specified
behaviour of each part.
-/

namespace RetailDB

/-- A row of the products table, restricted to the columns the triggers and
route handlers under verification actually read or write. -/
structure Product where
  product_id : Nat
  stock_code : String
  stock_quantity : Int
  deriving Repr, DecidableEq

/-- A row of the retail table (one transaction line).  The trigger file
spells the product-code column stockcode while routes/retail.js spells it
stock_code; both are modelled by the single field stock_code. -/
structure RetailRow where
  id : Nat
  stock_code : String
  quantity : Int
  unit_price : ℚ
  deriving Repr, DecidableEq

/-- A row of the orders table.  The update_stock trigger reads NEW.product_id
and NEW.quantity and compares NEW.product_id against the retail table's
stockcode column, so product_id is modelled with the comparison type. -/
structure OrderRow where
  order_id : Nat
  product_id : String
  quantity : Int
  deriving Repr, DecidableEq

/-- A row of the order_items table (only the delete route reads it). -/
structure OrderItem where
  id : Nat
  order_id : Nat
  product_id : Nat
  deriving Repr, DecidableEq

/-- A row of the inventory_movements table (only the delete route reads it). -/
structure InventoryMovement where
  id : Nat
  product_id : Nat
  deriving Repr, DecidableEq

/-- The database state touched by the embedded triggers and routes. -/
structure DBState where
  products : List Product
  retail : List RetailRow
  orders : List OrderRow
  order_items : List OrderItem
  inventory_movements : List InventoryMovement
  deriving Repr, DecidableEq

/-- Embedding of the trigger function enforce_positive_values: RAISE
EXCEPTION when NEW.quantity < 0 or NEW.unit_price < 0, otherwise RETURN
NEW. -/
def enforce_positive_values (new : RetailRow) : Except String RetailRow :=
  if new.quantity < 0 then Except.error "Quantity cannot be negative"
  else if new.unit_price < 0 then Except.error "Unit price cannot be negative"
  else Except.ok new

/-- One retail row under the update_stock trigger's statement

  UPDATE retail SET quantity = quantity - NEW.quantity
  WHERE stockcode = NEW.product_id;

a row missing the WHERE clause is untouched, and a matched row's proposed
new version passes through the cascaded BEFORE UPDATE trigger
trg_enforce_positive_values, which raises when the decrement drives the
quantity negative. -/
def updateStockRow (new : OrderRow) (r : RetailRow) : Except String RetailRow :=
  if r.stock_code = new.product_id then
    enforce_positive_values { r with quantity := r.quantity - new.quantity }
  else Except.ok r

/-- The update_stock trigger's UPDATE applied across the retail table: the
first row whose cascaded guard raises aborts the whole statement, otherwise
every matched row is decremented. -/
def applyUpdateStock (new : OrderRow) : List RetailRow → Except String (List RetailRow)
  | [] => Except.ok []
  | r :: rs =>
      match updateStockRow new r with
      | Except.error e => Except.error e
      | Except.ok r2 =>
          match applyUpdateStock new rs with
          | Except.error e => Except.error e
          | Except.ok rs2 => Except.ok (r2 :: rs2)

/-- Embedding of the trigger function update_stock, whose body is the single
UPDATE above followed by RETURN NEW.  On success the result pairs the
updated state with the number of rows the UPDATE matched; the statement
aborts when the cascaded positive-value guard raises on a matched row. -/
def update_stock (new : OrderRow) (s : DBState) : Except String (DBState × Nat) :=
  match applyUpdateStock new s.retail with
  | Except.error e => Except.error e
  | Except.ok rs =>
      Except.ok ({ s with retail := rs },
        (s.retail.filter fun r => r.stock_code = new.product_id).length)

/-- INSERT INTO orders followed by the AFTER INSERT FOR EACH ROW trigger
trg_update_stock; an exception raised inside the trigger (through the
cascaded guard on retail) aborts the insert. -/
def insertOrder (new : OrderRow) (s : DBState) : Except String DBState :=
  match update_stock new { s with orders := s.orders ++ [new] } with
  | Except.error e => Except.error e
  | Except.ok p => Except.ok p.1

/-- INSERT INTO retail under the BEFORE INSERT FOR EACH ROW trigger
trg_enforce_positive_values: the trigger runs first and an exception aborts
the statement, making no row visible. -/
def insertRetail (new : RetailRow) (s : DBState) : Except String DBState :=
  match enforce_positive_values new with
  | Except.error e => Except.error e
  | Except.ok r => Except.ok { s with retail := s.retail ++ [r] }

/-- UPDATE of the retail row with the given id to the new row version, under
the BEFORE UPDATE FOR EACH ROW trigger trg_enforce_positive_values applied
to the new row version. -/
def updateRetail (rid : Nat) (new : RetailRow) (s : DBState) : Except String DBState :=
  match enforce_positive_values new with
  | Except.error e => Except.error e
  | Except.ok r =>
      Except.ok { s with retail := s.retail.map fun q => if q.id = rid then r else q }

/-- The state visible after a statement runs in its own transaction: the new
state on commit, the original state when the statement aborted. -/
def runTx (s : DBState) (r : Except String DBState) : DBState :=
  match r with
  | Except.ok s2 => s2
  | Except.error _ => s

/-- Decimal value of a run of digit characters, most significant first. -/
def digitsVal (ds : List Char) : Nat :=
  ds.foldl (fun a c => a * 10 + (c.toNat - 48)) 0

/-- Leading and trailing whitespace removal on a character list. -/
def trimWS (cs : List Char) : List Char :=
  ((cs.dropWhile Char.isWhitespace).reverse.dropWhile Char.isWhitespace).reverse

/-- An exact decimal number, denoting mantissa / 10 ^ exp10 (see
DecNum.toRat).  JavaScript numbers occurring in JSON request bodies and in
the parsed query strings are decimal literals, which this type represents
exactly; it is used instead of ℚ so that every comparison the handlers make
is a kernel-computable integer comparison. -/
structure DecNum where
  mantissa : Int
  exp10 : Nat
  deriving Repr, DecidableEq

/-- The rational number a DecNum denotes. -/
def DecNum.toRat (d : DecNum) : ℚ :=
  (d.mantissa : ℚ) / (10 : ℚ) ^ d.exp10

/-- Exponent part of a JavaScript decimal numeric literal: an optional sign
followed by at least one digit, consuming the whole remainder; the mantissa
is rescaled accordingly. -/
def parseExpPart (mant : DecNum) (cs : List Char) : Option DecNum :=
  let rest :=
    match cs with
    | '+' :: r => r
    | '-' :: r => r
    | _ => cs
  let neg :=
    match cs with
    | '-' :: _ => true
    | _ => false
  let ed := rest.takeWhile Char.isDigit
  let tail := rest.dropWhile Char.isDigit
  if ed.isEmpty || !tail.isEmpty then none
  else if neg then some ⟨mant.mantissa, mant.exp10 + digitsVal ed⟩
  else some ⟨mant.mantissa * (10 : Int) ^ digitsVal ed, mant.exp10⟩

/-- Unsigned JavaScript decimal numeric literal: digits with an optional
fraction (at least one digit overall) and an optional exponent, consuming
the whole input.  The digits I.F denote the decimal (IF) / 10 ^ length F. -/
def parseDecPart (cs : List Char) : Option DecNum :=
  let ip := cs.takeWhile Char.isDigit
  let r1 := cs.dropWhile Char.isDigit
  let fp :=
    match r1 with
    | '.' :: rest => rest.takeWhile Char.isDigit
    | _ => []
  let r2 :=
    match r1 with
    | '.' :: rest => rest.dropWhile Char.isDigit
    | _ => r1
  if ip.isEmpty && fp.isEmpty then none
  else
    let mant : DecNum :=
      ⟨(digitsVal ip : Int) * (10 : Int) ^ fp.length + (digitsVal fp : Int), fp.length⟩
    match r2 with
    | [] => some mant
    | 'e' :: rest => parseExpPart mant rest
    | 'E' :: rest => parseExpPart mant rest
    | _ => none

/-- Signed JavaScript decimal numeric literal. -/
def parseSignedNumber (cs : List Char) : Option DecNum :=
  match cs with
  | '+' :: rest => parseDecPart rest
  | '-' :: rest => (parseDecPart rest).map fun d => ⟨-d.mantissa, d.exp10⟩
  | _ => parseDecPart cs

/-- JavaScript Number(s) on a string, restricted to decimal numeric
literals: whitespace is trimmed, the empty string converts to 0, and none
stands for NaN. -/
def jsStrToNumber (s : String) : Option DecNum :=
  let cs := trimWS s.data
  if cs.isEmpty then some ⟨0, 0⟩ else parseSignedNumber cs

/-- JavaScript parseFloat(s), restricted to decimal mantissas: parses the
longest signed decimal prefix after trimming whitespace; none stands for
NaN (no digit found). -/
def jsParseFloat (s : String) : Option DecNum :=
  let cs := trimWS s.data
  let body :=
    match cs with
    | '+' :: rest => rest
    | '-' :: rest => rest
    | _ => cs
  let neg :=
    match cs with
    | '-' :: _ => true
    | _ => false
  let ip := body.takeWhile Char.isDigit
  let r1 := body.dropWhile Char.isDigit
  let fp :=
    match r1 with
    | '.' :: rest => rest.takeWhile Char.isDigit
    | _ => []
  if ip.isEmpty && fp.isEmpty then none
  else
    let m : Int := (digitsVal ip : Int) * (10 : Int) ^ fp.length + (digitsVal fp : Int)
    some ⟨if neg then -m else m, fp.length⟩

/-- JavaScript parseInt(s) in base 10: parses the longest signed digit
prefix after trimming whitespace; none stands for NaN. -/
def jsParseInt (s : String) : Option Int :=
  let cs := trimWS s.data
  let body :=
    match cs with
    | '+' :: rest => rest
    | '-' :: rest => rest
    | _ => cs
  let neg :=
    match cs with
    | '-' :: _ => true
    | _ => false
  let ip := body.takeWhile Char.isDigit
  if ip.isEmpty then none
  else some (if neg then -(digitsVal ip : Int) else (digitsVal ip : Int))

/-- A JSON value as delivered by the express.json body parser.  A parsed
JSON document never contains NaN or undefined; absence of a field is
modelled with Option at the use sites. -/
inductive JSVal where
  | num (q : DecNum)
  | str (s : String)
  | bool (b : Bool)
  | null
  deriving Repr, DecidableEq

/-- JavaScript truthiness of a possibly-undefined value: undefined, null,
0, the empty string and false are falsy (a decimal is 0 exactly when its
mantissa is, see DecNum.toRat_eq_zero_iff). -/
def jsTruthy : Option JSVal → Bool
  | none => false
  | some (JSVal.num q) => !decide (q.mantissa = 0)
  | some (JSVal.str s) => !decide (s = "")
  | some (JSVal.bool b) => b
  | some JSVal.null => false

/-- JavaScript numeric coercion Number(v); none stands for NaN. -/
def jsToNumber : JSVal → Option DecNum
  | JSVal.num q => some q
  | JSVal.str s => jsStrToNumber s
  | JSVal.bool b => some (if b then ⟨1, 0⟩ else ⟨0, 0⟩)
  | JSVal.null => some ⟨0, 0⟩

/-- JavaScript global isNaN(v): numeric coercion followed by the NaN test. -/
def jsIsNaN (v : JSVal) : Bool :=
  (jsToNumber v).isNone

/-- The JavaScript comparison v <= 0: both sides are coerced to numbers and
any comparison against NaN is false (a decimal is ≤ 0 exactly when its
mantissa is, see DecNum.toRat_nonpos_iff). -/
def jsLeZero (v : JSVal) : Bool :=
  match jsToNumber v with
  | none => false
  | some q => decide (q.mantissa ≤ 0)

/-- Whether a possibly-undefined value has JavaScript type string. -/
def isStringVal : Option JSVal → Bool
  | some (JSVal.str _) => true
  | _ => false

/-- The .length of a string value (0 on anything else; only consulted after
the string type test in the validator, mirroring the short-circuit). -/
def strLenVal : Option JSVal → Nat
  | some (JSVal.str s) => s.length
  | _ => 0

/-- Whether a JSON value is a number strictly greater than 0.  This is the
specification's reading of a positive unit price (a value of JSON type
number), used to state the validation claim (a decimal is positive exactly
when its mantissa is, see DecNum.toRat_pos_iff). -/
def isNumGtZero : JSVal → Bool
  | JSVal.num q => decide (0 < q.mantissa)
  | _ => false

/-- The request-body fields read by the product validation middleware;
none models an absent (undefined) field. -/
structure ProductBody where
  stock_code : Option JSVal
  description : Option JSVal
  unit_price : Option JSVal
  deriving Repr, DecidableEq

/-- Outcome of the validation middleware: an immediate response, or the
call of next() handing over to the route handler. -/
inductive ValidationOutcome where
  | rejected (status : Nat) (msg : String)
  | nextCalled
  deriving Repr, DecidableEq

/-- Embedding of the validateProduct middleware of index.js: missing
(falsy) stock_code or description, a stock_code that is not a string of at
most 20 characters, or a present unit_price with isNaN(unit_price) or
unit_price <= 0, each answer 400 before the handler runs. -/
def validateProduct (b : ProductBody) : ValidationOutcome :=
  if !jsTruthy b.stock_code || !jsTruthy b.description then
    ValidationOutcome.rejected 400 "Missing required fields"
  else if !isStringVal b.stock_code || strLenVal b.stock_code > 20 then
    ValidationOutcome.rejected 400 "stock_code must be a string with maximum 20 characters"
  else
    match b.unit_price with
    | none => ValidationOutcome.nextCalled
    | some v =>
        if jsIsNaN v || jsLeZero v then
          ValidationOutcome.rejected 400 "unit_price must be a positive number"
        else ValidationOutcome.nextCalled

/-- Number of database queries the POST /api/products pipeline issues: the
validator answers before any query, and on next() the handler runs its one
INSERT statement. -/
def createProductQueries (b : ProductBody) : Nat :=
  match validateProduct b with
  | ValidationOutcome.rejected _ _ => 0
  | ValidationOutcome.nextCalled => 1

/-- Whether a validation outcome is a 400 rejection. -/
def rejected400 : ValidationOutcome → Bool
  | ValidationOutcome.rejected 400 _ => true
  | _ => false

/-- The sort-column allow-list of the product listing route. -/
def validSortColumns : List String :=
  ["product_id", "stock_code", "description", "unit_price",
   "stock_quantity", "created_at", "updated_at"]

/-- The sort column placed into ORDER BY: the requested column when on the
allow-list, otherwise the default column stock_code. -/
def sortColumn (sort_by : String) : String :=
  if sort_by ∈ validSortColumns then sort_by else "stock_code"

/-- JavaScript toUpperCase restricted to ASCII, as applied to the
sort_order query parameter. -/
def jsToUpperCase (s : String) : String :=
  String.mk (s.data.map Char.toUpper)

/-- The sort direction placed into ORDER BY: the upper-cased request value
when it is ASC or DESC, otherwise ASC. -/
def sortOrderValue (sort_order : String) : String :=
  if jsToUpperCase sort_order ∈ ["ASC", "DESC"] then jsToUpperCase sort_order
  else "ASC"

/-- The pagination metadata object returned by the product listing route. -/
structure PaginationMeta where
  current_page : Nat
  total_pages : Nat
  total_records : Nat
  limit : Nat
  has_next : Bool
  has_prev : Bool
  deriving Repr, DecidableEq

/-- Embedding of the pagination core of GET /api/products, applied to the
row list remaining after the WHERE filters and ORDER BY sorting: OFFSET
(page - 1) * limit, LIMIT limit, a COUNT(*) of the same filtered set, and
the metadata object, with Math.ceil(total / limit) rendered over the
naturals. -/
def listProducts (rows : List Product) (page limit : Nat) :
    List Product × PaginationMeta :=
  let offset := (page - 1) * limit
  let total := rows.length
  let totalPages := (total + limit - 1) / limit
  ((rows.drop offset).take limit,
   { current_page := page,
     total_pages := totalPages,
     total_records := total,
     limit := limit,
     has_next := decide (page < totalPages),
     has_prev := decide (1 < page) })

/-- The identifier test of the product routes:
!isNaN(id) && !isNaN(parseFloat(id)). -/
def isNumericId (id : String) : Bool :=
  (jsStrToNumber id).isSome && (jsParseFloat id).isSome

/-- The column a single-product lookup searches, as chosen by the identifier
test. -/
def searchField (id : String) : String :=
  if isNumericId id then "product_id" else "stock_code"

/-- Row lookup of the product routes: numeric identifiers are parsed with
parseInt and matched against product_id, others are matched against
stock_code. -/
def findProduct (id : String) (ps : List Product) : Option Product :=
  if isNumericId id then
    match jsParseInt id with
    | some n => ps.find? fun p => (p.product_id : Int) == n
    | none => none
  else ps.find? fun p => p.stock_code == id

/-- Outcome of DELETE /api/products/:id. -/
inductive DeleteResult where
  | notFound
  | conflict (order_items_count inventory_movements_count : Nat)
  | deleted (row : Product)
  deriving Repr, DecidableEq

/-- The two COUNT columns of the delete route's check query.  The query
LEFT JOINs order_items and inventory_movements onto the product row, so
each COUNT over the join equals the matching row count multiplied by the
other side's row count when that side is nonempty. -/
def dependentJoinCounts (p : Product) (s : DBState) : Nat × Nat :=
  let a := (s.order_items.filter fun oi => oi.product_id == p.product_id).length
  let b := (s.inventory_movements.filter fun im => im.product_id == p.product_id).length
  (if a = 0 then 0 else a * max 1 b, if b = 0 then 0 else max 1 a * b)

/-- Embedding of DELETE /api/products/:id: look the product up by either
key, answer 404 when absent, answer 409 leaving the state untouched when
the dependent-row count is positive, otherwise delete the row and return
it. -/
def deleteProduct (id : String) (s : DBState) : DeleteResult × DBState :=
  match findProduct id s.products with
  | none => (DeleteResult.notFound, s)
  | some p =>
      let c := dependentJoinCounts p s
      if c.1 + c.2 > 0 then (DeleteResult.conflict c.1 c.2, s)
      else
        (DeleteResult.deleted p,
         { s with products := s.products.filter fun q => !(q.product_id == p.product_id) })

/-- Whether a delete outcome is the 409 conflict answer. -/
def isConflict : DeleteResult → Bool
  | DeleteResult.conflict _ _ => true
  | _ => false

/-- Embedding of handleDatabaseError of index.js: the HTTP status and
message chosen for a caught database failure, given the PostgreSQL error
code and whether NODE_ENV is development. -/
def handleDatabaseError (code : String) (isDevelopment : Bool) (message : String) :
    Nat × String :=
  if code = "23505" then (409, "Product with this stock_code already exists")
  else if code = "23503" then (400, "Referenced record does not exist")
  else if code = "23514" then
    (400, "Data violates database constraints (e.g., negative stock or zero price)")
  else (500, if isDevelopment then message else "Database operation failed")

/-- Embedding of GET /api/retail: SELECT * FROM retail LIMIT 100. -/
def getAllRetailRows (s : DBState) : List RetailRow :=
  s.retail.take 100

/-- The GET /api/retail handler never reads req.query, so the response is
the capped row list whatever parameters arrive. -/
def retailListHandler (s : DBState) (_queryParams : List (String × String)) :
    List RetailRow :=
  getAllRetailRows s

/-- Whether a statement result is an abort. -/
def isErrorResult (r : Except String DBState) : Bool :=
  match r with
  | Except.error _ => true
  | Except.ok _ => false

/-- A decimal denotes a positive rational exactly when its mantissa is a
positive integer; this justifies implementing the handlers' numeric
comparisons on the mantissa. -/
theorem DecNum.toRat_pos_iff (d : DecNum) : 0 < d.toRat ↔ 0 < d.mantissa := by
  have h10 : (0 : ℚ) < (10 : ℚ) ^ d.exp10 := by positivity
  rw [DecNum.toRat, lt_div_iff₀ h10, zero_mul]
  exact Int.cast_pos

/-- A decimal denotes a nonpositive rational exactly when its mantissa is a
nonpositive integer. -/
theorem DecNum.toRat_nonpos_iff (d : DecNum) : d.toRat ≤ 0 ↔ d.mantissa ≤ 0 := by
  have h10 : (0 : ℚ) < (10 : ℚ) ^ d.exp10 := by positivity
  rw [DecNum.toRat, div_le_iff₀ h10, zero_mul]
  exact Int.cast_nonpos

/-- A decimal denotes 0 exactly when its mantissa is 0. -/
theorem DecNum.toRat_eq_zero_iff (d : DecNum) : d.toRat = 0 ↔ d.mantissa = 0 := by
  have h10 : ((10 : ℚ) ^ d.exp10) ≠ 0 := by positivity
  rw [DecNum.toRat, div_eq_zero_iff]
  simp [h10]

/-- Natural ceiling division, as computed by the listing route from
Math.ceil, coincides with the ceiling of the exact rational quotient. -/
theorem ceilDiv_eq_nat_ceil (a b : ℕ) (hb : 0 < b) :
    (a + b - 1) / b = ⌈(a : ℚ) / (b : ℚ)⌉₊ := by
  rcases Nat.eq_zero_or_pos a with ha | ha
  · subst ha
    have h0 : (b - 1) / b = 0 := Nat.div_eq_of_lt (Nat.sub_lt hb Nat.one_pos)
    simpa using h0
  · have hb' : (0 : ℚ) < (b : ℚ) := by exact_mod_cast hb
    have hmod := Nat.div_add_mod (a + b - 1) b
    have hmlt : (a + b - 1) % b < b := Nat.mod_lt _ hb
    set n := (a + b - 1) / b with hn
    have hP : n * b + (a + b - 1) % b = a + b - 1 := by
      rw [mul_comm]; exact hmod
    have hn1 : 1 ≤ n := by
      rw [hn, Nat.one_le_div_iff hb]; omega
    have h1 : a ≤ n * b := by
      generalize n * b = P at hP; omega
    have h2 : (n - 1) * b < a := by
      have hsub : (n - 1) * b = n * b - b := by rw [Nat.sub_mul, one_mul]
      rw [hsub]
      generalize n * b = P at hP ⊢; omega
    symm
    rw [Nat.ceil_eq_iff (by omega)]
    constructor
    · rw [lt_div_iff₀ hb']
      exact_mod_cast h2
    · rw [div_le_iff₀ hb']
      exact_mod_cast h1

/-- C1: the claimed behaviour fails in the code.  The AFTER INSERT trigger
on orders executes UPDATE retail SET quantity = quantity - NEW.quantity
WHERE stockcode = NEW.product_id, so no execution of an order insert,
committed or aborted, ever modifies the products table.  Concretely, with
no matching retail row the insert commits and the referenced product
stocked at 20 still has stock_quantity 20, not 15 as claimed; and with a
matching retail line of quantity 3 the cascaded BEFORE UPDATE guard on
retail raises on the proposed quantity -2 and the whole insert aborts,
again leaving the stock at 20. -/
theorem trg_update_stock_never_touches_products :
    (∀ (new : OrderRow) (s : DBState),
       (runTx s (insertOrder new s)).products = s.products) ∧
    insertOrder ⟨1, "85123A", 5⟩ ⟨[⟨1, "85123A", 20⟩], [], [], [], []⟩ =
      Except.ok ⟨[⟨1, "85123A", 20⟩], [], [⟨1, "85123A", 5⟩], [], []⟩ ∧
    insertOrder ⟨1, "85123A", 5⟩
        ⟨[⟨1, "85123A", 20⟩], [⟨1, "85123A", 3, 5⟩], [], [], []⟩ =
      Except.error "Quantity cannot be negative" := by
  refine ⟨?_, rfl, rfl⟩
  intro new s
  cases happ : applyUpdateStock new s.retail with
  | error e => simp [insertOrder, update_stock, runTx, happ]
  | ok rs => simp [insertOrder, update_stock, runTx, happ]

/-- C2: for every retail insert or update, a negative quantity or negative
unit price makes the trigger raise, the statement aborts, and the state is
unchanged; nonnegative values, zero included, pass the guard and the
insert succeeds. -/
theorem retail_positive_value_guard (s : DBState) (new : RetailRow) (rid : Nat) :
    (new.quantity < 0 ∨ new.unit_price < 0 →
       isErrorResult (insertRetail new s) = true ∧
       runTx s (insertRetail new s) = s ∧
       isErrorResult (updateRetail rid new s) = true ∧
       runTx s (updateRetail rid new s) = s) ∧
    (0 ≤ new.quantity → 0 ≤ new.unit_price →
       insertRetail new s = Except.ok { s with retail := s.retail ++ [new] }) := by
  constructor
  · intro h
    by_cases hq : new.quantity < 0
    · simp [insertRetail, updateRetail, enforce_positive_values, isErrorResult, runTx, hq]
    · have hp : new.unit_price < 0 := by tauto
      simp [insertRetail, updateRetail, enforce_positive_values, isErrorResult, runTx, hq, hp]
  · intro hq hp
    have hq' : ¬new.quantity < 0 := not_lt.mpr hq
    have hp' : ¬new.unit_price < 0 := not_lt.mpr hp
    simp [insertRetail, enforce_positive_values, hq', hp']

/-- C2 witness: a quantity of -1 aborts insert and update leaving the
state unchanged, and a row with quantity 0 and unit price 0 is accepted. -/
theorem retail_positive_value_guard_witness :
    isErrorResult (insertRetail ⟨1, "85123A", -1, 2⟩ ⟨[], [], [], [], []⟩) = true ∧
    runTx ⟨[], [], [], [], []⟩ (insertRetail ⟨1, "85123A", -1, 2⟩ ⟨[], [], [], [], []⟩) =
      ⟨[], [], [], [], []⟩ ∧
    isErrorResult (updateRetail 1 ⟨1, "85123A", -1, 2⟩ ⟨[], [], [], [], []⟩) = true ∧
    insertRetail ⟨2, "85123A", 0, 0⟩ ⟨[], [], [], [], []⟩ =
      Except.ok ⟨[], [⟨2, "85123A", 0, 0⟩], [], [], []⟩ := by
  have hneg := (retail_positive_value_guard ⟨[], [], [], [], []⟩ ⟨1, "85123A", -1, 2⟩ 1).1
    (Or.inl (by decide))
  have hzero := (retail_positive_value_guard ⟨[], [], [], [], []⟩ ⟨2, "85123A", 0, 0⟩ 1).2
    (by decide) (by decide)
  exact ⟨hneg.1, hneg.2.1, hneg.2.2.1, hzero⟩

/-- C3 counterexample: an order insert whose product_id matches no row does
not abort with a referential-integrity error: the decrement UPDATE matches
zero rows and the insert commits. -/
theorem insertOrder_missing_reference_commits :
    insertOrder ⟨7, "99999", 5⟩ ⟨[⟨1, "85123A", 20⟩], [], [], [], []⟩ =
      Except.ok ⟨[⟨1, "85123A", 20⟩], [], [⟨7, "99999", 5⟩], [], []⟩ ∧
    update_stock ⟨7, "99999", 5⟩ ⟨[⟨1, "85123A", 20⟩], [], [⟨7, "99999", 5⟩], [], []⟩ =
      Except.ok (⟨[⟨1, "85123A", 20⟩], [], [⟨7, "99999", 5⟩], [], []⟩, 0) := by
  exact ⟨rfl, rfl⟩

/-- The trigger's UPDATE over rows none of which satisfies the WHERE clause
succeeds and changes nothing. -/
theorem applyUpdateStock_no_match (new : OrderRow) (l : List RetailRow)
    (h : ∀ r ∈ l, r.stock_code ≠ new.product_id) :
    applyUpdateStock new l = Except.ok l := by
  induction l with
  | nil => rfl
  | cons r rs ih =>
      have hr := h r (List.mem_cons_self r rs)
      have ihr := ih fun q hq => h q (List.mem_cons_of_mem r hq)
      simp [applyUpdateStock, updateStockRow, hr, ihr]

/-- C3 amended: when no retail row matches the inserted order's product_id,
the trigger's UPDATE affects zero rows, nothing is raised, and the order
insert commits unchanged except for the new order row: the decrement is
silently skipped rather than failing. -/
theorem insertOrder_missing_reference_silent_skip (new : OrderRow) (s : DBState)
    (h : ∀ r ∈ s.retail, r.stock_code ≠ new.product_id) :
    insertOrder new s = Except.ok { s with orders := s.orders ++ [new] } ∧
    update_stock new { s with orders := s.orders ++ [new] } =
      Except.ok ({ s with orders := s.orders ++ [new] }, 0) := by
  have happ := applyUpdateStock_no_match new s.retail h
  have hfil : (s.retail.filter fun r => r.stock_code = new.product_id).length = 0 := by
    simp only [List.length_eq_zero, List.filter_eq_nil_iff]
    intro r hr
    simpa using h r hr
  have hus : update_stock new { s with orders := s.orders ++ [new] } =
      Except.ok ({ s with orders := s.orders ++ [new] }, 0) := by
    simp only [update_stock]
    rw [happ, hfil]
  refine ⟨?_, hus⟩
  simp only [insertOrder, hus]

/-- C3 amended witness: with a single retail row whose code differs from
the order's product_id, the insert commits and the UPDATE succeeds having
matched zero rows. -/
theorem insertOrder_missing_reference_silent_skip_witness :
    insertOrder ⟨9, "99999", 4⟩ ⟨[], [⟨1, "17850", 3, 5⟩], [], [], []⟩ =
      Except.ok ⟨[], [⟨1, "17850", 3, 5⟩], [⟨9, "99999", 4⟩], [], []⟩ ∧
    update_stock ⟨9, "99999", 4⟩ ⟨[], [⟨1, "17850", 3, 5⟩], [⟨9, "99999", 4⟩], [], []⟩ =
      Except.ok (⟨[], [⟨1, "17850", 3, 5⟩], [⟨9, "99999", 4⟩], [], []⟩, 0) :=
  insertOrder_missing_reference_silent_skip ⟨9, "99999", 4⟩
    ⟨[], [⟨1, "17850", 3, 5⟩], [], [], []⟩ (by decide)

/-- C4 counterexample: a request body whose unit_price is present but is
not a JSON number (the string value of the characters 5, and the boolean
true) passes validation and reaches the INSERT, instead of being rejected
with 400 before any query. -/
theorem validateProduct_accepts_nonnumber_price :
    isNumGtZero (JSVal.str "5") = false ∧
    validateProduct
        ⟨some (JSVal.str "85123A"), some (JSVal.str "WHITE HANGING HEART"),
         some (JSVal.str "5")⟩ = ValidationOutcome.nextCalled ∧
    createProductQueries
        ⟨some (JSVal.str "85123A"), some (JSVal.str "WHITE HANGING HEART"),
         some (JSVal.str "5")⟩ = 1 ∧
    isNumGtZero (JSVal.bool true) = false ∧
    validateProduct
        ⟨some (JSVal.str "85123A"), some (JSVal.str "WHITE HANGING HEART"),
         some (JSVal.bool true)⟩ = ValidationOutcome.nextCalled := by
  decide

/-- C4 amended: when stock_code or description is falsy (in particular
missing), or stock_code is not a string of at most 20 characters, or
unit_price is present and its JavaScript numeric coercion is NaN or at
most 0, the validator answers 400 and no query is issued; a present
unit_price whose coercion is a positive number (a numeric string or true
included) is accepted. -/
theorem validateProduct_rejects_invalid (b : ProductBody)
    (h : jsTruthy b.stock_code = false ∨ jsTruthy b.description = false ∨
         isStringVal b.stock_code = false ∨ 20 < strLenVal b.stock_code ∨
         (b.unit_price.any fun v => jsIsNaN v || jsLeZero v) = true) :
    rejected400 (validateProduct b) = true ∧ createProductQueries b = 0 := by
  suffices hr : rejected400 (validateProduct b) = true by
    refine ⟨hr, ?_⟩
    rw [createProductQueries]
    rcases hv : validateProduct b with ⟨st, m⟩ | _
    · rfl
    · rw [hv] at hr
      simp [rejected400] at hr
  by_cases h1 : (!jsTruthy b.stock_code || !jsTruthy b.description) = true
  · rw [validateProduct, if_pos h1]
    rfl
  · have h1f := eq_false_of_ne_true h1
    simp only [Bool.or_eq_false_iff, Bool.not_eq_false'] at h1f
    by_cases h2 : (!isStringVal b.stock_code || decide (strLenVal b.stock_code > 20)) = true
    · rw [validateProduct, if_neg h1, if_pos h2]
      rfl
    · have h2f := eq_false_of_ne_true h2
      simp only [Bool.or_eq_false_iff, Bool.not_eq_false', decide_eq_false_iff_not,
        not_lt] at h2f
      rcases hu : b.unit_price with _ | v
      · exfalso
        rcases h with hc | hc | hc | hc | hc
        · simp [h1f.1] at hc
        · simp [h1f.2] at hc
        · simp [h2f.1] at hc
        · exact absurd hc (not_lt.mpr h2f.2)
        · rw [hu] at hc
          simp at hc
      · by_cases h3 : (jsIsNaN v || jsLeZero v) = true
        · rw [validateProduct, if_neg h1, if_neg h2, hu]
          simp [rejected400, h3]
        · exfalso
          rcases h with hc | hc | hc | hc | hc
          · simp [h1f.1] at hc
          · simp [h1f.2] at hc
          · simp [h2f.1] at hc
          · exact absurd hc (not_lt.mpr h2f.2)
          · rw [hu] at hc
            simp only [Option.any_some] at hc
            exact h3 hc

/-- C4 amended witness: a body with no stock_code is rejected with 400 and
issues no query, and a body with a negative numeric unit_price likewise. -/
theorem validateProduct_rejects_invalid_witness :
    (rejected400 (validateProduct ⟨none, some (JSVal.str "WHITE HANGING HEART"), none⟩) = true ∧
     createProductQueries ⟨none, some (JSVal.str "WHITE HANGING HEART"), none⟩ = 0) ∧
    (rejected400 (validateProduct
        ⟨some (JSVal.str "85123A"), some (JSVal.str "WHITE HANGING HEART"),
         some (JSVal.num ⟨-2, 0⟩)⟩) = true ∧
     createProductQueries
        ⟨some (JSVal.str "85123A"), some (JSVal.str "WHITE HANGING HEART"),
         some (JSVal.num ⟨-2, 0⟩)⟩ = 0) :=
  ⟨validateProduct_rejects_invalid _ (Or.inl (by decide)),
   validateProduct_rejects_invalid _ (Or.inr (Or.inr (Or.inr (Or.inr (by decide)))))⟩

/-- C5 counterexample: a request with sort_by outside the allow-list and
sort_order DESC is sorted by the default column stock_code in descending
order, not ascending as claimed. -/
theorem sort_fallback_descending_counterexample :
    validSortColumns.contains "name" = false ∧
    sortColumn "name" = "stock_code" ∧
    sortOrderValue "DESC" = "DESC" ∧
    ("DESC" == "ASC") = false := by
  decide

/-- C5 amended: a sort_by outside the allow-list falls back to the default
column stock_code (itself on the allow-list, so never an error), while the
direction is determined independently by sort_order: values other than ASC
or DESC case-insensitively fall back to ASC, and ASC or DESC in any case
are honoured upper-cased. -/
theorem sort_fallback_allowlist (sb so : String) (h : sb ∉ validSortColumns) :
    sortColumn sb = "stock_code" ∧
    sortColumn sb ∈ validSortColumns ∧
    (jsToUpperCase so ∉ ["ASC", "DESC"] → sortOrderValue so = "ASC") ∧
    (jsToUpperCase so ∈ ["ASC", "DESC"] → sortOrderValue so = jsToUpperCase so) := by
  refine ⟨?_, ?_, ?_, ?_⟩
  · rw [sortColumn, if_neg h]
  · rw [sortColumn, if_neg h]
    decide
  · intro hso
    rw [sortOrderValue, if_neg hso]
  · intro hso
    rw [sortOrderValue, if_pos hso]

/-- C5 amended witness: sort_by of the characters n a m e falls back to
stock_code, and a sort_order of the characters b a n a n a falls back to
ASC, while the characters d e s c are honoured as DESC. -/
theorem sort_fallback_allowlist_witness :
    (sortColumn "name" = "stock_code" ∧
     sortColumn "name" ∈ validSortColumns ∧
     sortOrderValue "banana" = "ASC") ∧
    sortOrderValue "desc" = jsToUpperCase "desc" :=
  ⟨⟨(sort_fallback_allowlist "name" "banana" (by decide)).1,
    (sort_fallback_allowlist "name" "banana" (by decide)).2.1,
    (sort_fallback_allowlist "name" "banana" (by decide)).2.2.1 (by decide)⟩,
   (sort_fallback_allowlist "name" "desc" (by decide)).2.2.2 (by decide)⟩

/-- C6: for every listing request with page at least 1 and positive limit,
the returned page holds at most limit rows, total_pages is the ceiling of
total_records over limit, current_page echoes the request, has_next holds
exactly when page is below total_pages and has_prev exactly when page is
above 1. -/
theorem listProducts_pagination_contract (rows : List Product) (page limit : Nat)
    (_hp : 1 ≤ page) (hl : 0 < limit) :
    (listProducts rows page limit).1.length ≤ limit ∧
    (listProducts rows page limit).2.total_pages =
      ⌈(((listProducts rows page limit).2.total_records : ℚ)) / (limit : ℚ)⌉₊ ∧
    (listProducts rows page limit).2.current_page = page ∧
    ((listProducts rows page limit).2.has_next = true ↔
      page < (listProducts rows page limit).2.total_pages) ∧
    ((listProducts rows page limit).2.has_prev = true ↔ 1 < page) := by
  refine ⟨?_, ?_, rfl, ?_, ?_⟩
  · exact List.length_take_le _ _
  · exact ceilDiv_eq_nat_ceil rows.length limit hl
  · simp [listProducts]
  · simp [listProducts]

/-- C6 witness: three rows listed with page 2 and limit 2 satisfy the
pagination contract. -/
theorem listProducts_pagination_contract_witness :
    1 ≤ 2 ∧ 0 < 2 ∧
    ((listProducts [⟨1, "A", 1⟩, ⟨2, "B", 2⟩, ⟨3, "C", 3⟩] 2 2).1.length ≤ 2 ∧
     (listProducts [⟨1, "A", 1⟩, ⟨2, "B", 2⟩, ⟨3, "C", 3⟩] 2 2).2.total_pages =
       ⌈(((listProducts [⟨1, "A", 1⟩, ⟨2, "B", 2⟩, ⟨3, "C", 3⟩] 2 2).2.total_records : ℚ)) /
         ((2 : Nat) : ℚ)⌉₊ ∧
     (listProducts [⟨1, "A", 1⟩, ⟨2, "B", 2⟩, ⟨3, "C", 3⟩] 2 2).2.current_page = 2 ∧
     ((listProducts [⟨1, "A", 1⟩, ⟨2, "B", 2⟩, ⟨3, "C", 3⟩] 2 2).2.has_next = true ↔
       2 < (listProducts [⟨1, "A", 1⟩, ⟨2, "B", 2⟩, ⟨3, "C", 3⟩] 2 2).2.total_pages) ∧
     ((listProducts [⟨1, "A", 1⟩, ⟨2, "B", 2⟩, ⟨3, "C", 3⟩] 2 2).2.has_prev = true ↔ 1 < 2)) :=
  ⟨by decide, by decide,
   listProducts_pagination_contract [⟨1, "A", 1⟩, ⟨2, "B", 2⟩, ⟨3, "C", 3⟩] 2 2
     (by decide) (by decide)⟩

/-- C7: when the delete route finds the addressed product, a zero dependent
count deletes the row and returns it, while at least one dependent
order-item or inventory-movement row yields the 409 conflict answer and
leaves the state unchanged. -/
theorem deleteProduct_dependent_rows_contract (id : String) (s : DBState) (p : Product)
    (hfind : findProduct id s.products = some p) :
    ((s.order_items.filter fun oi => oi.product_id == p.product_id) = [] →
     (s.inventory_movements.filter fun im => im.product_id == p.product_id) = [] →
       deleteProduct id s =
         (DeleteResult.deleted p,
          { s with products := s.products.filter fun q => !(q.product_id == p.product_id) })) ∧
    (0 < (s.order_items.filter fun oi => oi.product_id == p.product_id).length +
         (s.inventory_movements.filter fun im => im.product_id == p.product_id).length →
       isConflict (deleteProduct id s).1 = true ∧ (deleteProduct id s).2 = s) := by
  constructor
  · intro h1 h2
    rw [deleteProduct, hfind]
    simp [dependentJoinCounts, h1, h2]
  · intro hpos
    have key : 0 < (dependentJoinCounts p s).1 + (dependentJoinCounts p s).2 := by
      simp only [dependentJoinCounts]
      set a := (s.order_items.filter fun oi => oi.product_id == p.product_id).length with ha
      set b := (s.inventory_movements.filter fun im => im.product_id == p.product_id).length
        with hb
      rcases Nat.eq_zero_or_pos a with haz | hap
      · have hbp : 0 < b := by omega
        rw [if_pos haz, if_neg (Nat.pos_iff_ne_zero.mp hbp)]
        simpa using Nat.mul_pos (lt_of_lt_of_le Nat.one_pos (le_max_left 1 a)) hbp
      · have hp1 : 0 < a * max 1 b :=
          Nat.mul_pos hap (lt_of_lt_of_le Nat.one_pos (le_max_left 1 b))
        rw [if_neg (Nat.pos_iff_ne_zero.mp hap)]
        exact lt_of_lt_of_le hp1 (Nat.le_add_right _ _)
    simp only [deleteProduct, hfind]
    rw [if_pos key]
    exact ⟨rfl, rfl⟩

/-- C7 witness: in a store with products 1 and 2 where only product 2 has a
dependent order-item row, deleting product 1 succeeds returning the row,
and deleting product 2 answers conflict leaving the state unchanged. -/
theorem deleteProduct_dependent_rows_contract_witness :
    deleteProduct "1" ⟨[⟨1, "A", 20⟩, ⟨2, "B", 7⟩], [], [], [⟨1, 1, 2⟩], []⟩ =
      (DeleteResult.deleted ⟨1, "A", 20⟩, ⟨[⟨2, "B", 7⟩], [], [], [⟨1, 1, 2⟩], []⟩) ∧
    isConflict (deleteProduct "2" ⟨[⟨1, "A", 20⟩, ⟨2, "B", 7⟩], [], [], [⟨1, 1, 2⟩], []⟩).1 =
      true ∧
    (deleteProduct "2" ⟨[⟨1, "A", 20⟩, ⟨2, "B", 7⟩], [], [], [⟨1, 1, 2⟩], []⟩).2 =
      ⟨[⟨1, "A", 20⟩, ⟨2, "B", 7⟩], [], [], [⟨1, 1, 2⟩], []⟩ := by
  have hdel := (deleteProduct_dependent_rows_contract "1"
    ⟨[⟨1, "A", 20⟩, ⟨2, "B", 7⟩], [], [], [⟨1, 1, 2⟩], []⟩ ⟨1, "A", 20⟩ (by decide)).1
    (by decide) (by decide)
  have hcon := (deleteProduct_dependent_rows_contract "2"
    ⟨[⟨1, "A", 20⟩, ⟨2, "B", 7⟩], [], [], [⟨1, 1, 2⟩], []⟩ ⟨2, "B", 7⟩ (by decide)).2
    (by decide)
  exact ⟨hdel, hcon.1, hcon.2⟩

/-- C8: the product handlers map a caught database failure by PostgreSQL
error code: 23505 to 409, 23503 to 400, 23514 to 400, and anything else to
500 whose message is the internal detail only in the development
configuration and a generic text otherwise. -/
theorem handleDatabaseError_taxonomy (code : String) (dev : Bool) (msg : String) :
    (handleDatabaseError "23505" dev msg).1 = 409 ∧
    (handleDatabaseError "23503" dev msg).1 = 400 ∧
    (handleDatabaseError "23514" dev msg).1 = 400 ∧
    (code ≠ "23505" → code ≠ "23503" → code ≠ "23514" →
      (handleDatabaseError code dev msg).1 = 500 ∧
      (handleDatabaseError code true msg).2 = msg ∧
      (handleDatabaseError code false msg).2 = "Database operation failed") := by
  refine ⟨rfl, rfl, rfl, ?_⟩
  intro hA hB hC
  rw [handleDatabaseError, if_neg hA, if_neg hB, if_neg hC]
  rw [handleDatabaseError, if_neg hA, if_neg hB, if_neg hC]
  rw [handleDatabaseError, if_neg hA, if_neg hB, if_neg hC]
  exact ⟨rfl, rfl, rfl⟩

/-- C8 witness: the three constraint codes map to 409, 400, 400, and the
unclassified code XX000 maps to 500 exposing the message only in
development. -/
theorem handleDatabaseError_taxonomy_witness :
    (handleDatabaseError "23505" true "boom").1 = 409 ∧
    (handleDatabaseError "23503" true "boom").1 = 400 ∧
    (handleDatabaseError "23514" true "boom").1 = 400 ∧
    ((handleDatabaseError "XX000" true "boom").1 = 500 ∧
     (handleDatabaseError "XX000" true "boom").2 = "boom" ∧
     (handleDatabaseError "XX000" false "boom").2 = "Database operation failed") :=
  ⟨(handleDatabaseError_taxonomy "XX000" true "boom").1,
   (handleDatabaseError_taxonomy "XX000" true "boom").2.1,
   (handleDatabaseError_taxonomy "XX000" true "boom").2.2.1,
   (handleDatabaseError_taxonomy "XX000" true "boom").2.2.2
     (by decide) (by decide) (by decide)⟩

/-- C9: every lookup identifier is classified into exactly one of the two
search columns, the surrogate-key column product_id exactly when the
identifier passes the numeric test, and in particular ABC123 searches
stock_code while 42 searches product_id. -/
theorem product_lookup_identifier_classification :
    (∀ id : String, searchField id = "product_id" ∨ searchField id = "stock_code") ∧
    (∀ id : String, (searchField id = "product_id" ↔ isNumericId id = true)) ∧
    searchField "ABC123" = "stock_code" ∧
    searchField "42" = "product_id" := by
  refine ⟨?_, ?_, by decide, by decide⟩
  · intro id
    by_cases hn : isNumericId id = true
    · exact Or.inl (by rw [searchField, if_pos hn])
    · exact Or.inr (by rw [searchField, if_neg hn])
  · intro id
    by_cases hn : isNumericId id = true
    · simp [searchField, hn]
    · simp [searchField, hn]

/-- C10: GET /api/retail returns at most 100 rows whatever the table holds,
and the handler ignores the request's query parameters entirely, so no
pagination parameter is accepted. -/
theorem retail_listing_capped_at_100 :
    (∀ s : DBState, (getAllRetailRows s).length ≤ 100) ∧
    (∀ (s : DBState) (ps qs : List (String × String)),
       retailListHandler s ps = retailListHandler s qs) := by
  constructor
  · intro s
    exact List.length_take_le _ _
  · intro s ps qs
    rfl

end RetailDB
